import Mathlib

/-!
Verification of the Insurance Chat message-processing pipeline
(`app/lib/modules/insurance`): knowledge base, question categorizer,
context extractor, response generator, orchestration service
(`InsuranceService.processQuery`) and the `useInsuranceChat` hook.

Shallow embedding conventions:
* JavaScript strings are Lean `String`s; `String.prototype.includes` is
  `strContains` (substring test on the character list), `toLowerCase` is
  `strLower` (ASCII case mapping, the fragment the code relies on).
* JavaScript numbers that the code produces here are whole and non-negative,
  so they are modelled as `Nat`; `parseFloat` applied to a digit string is
  `parseDigits` (`none` models `NaN`). The confidence score is a rational.
* A rejected promise / thrown exception is `Except.error`; functions whose
  source can throw return `Except String _`.
* The external LLM boundary (`getLanguageModel` + `model.complete`) is a
  parameter `llm : String → Except String String` from the generated prompt
  to the completion text, and the response-generator collaborator of
  `processQuery` is a parameter instantiated by `responseGeneratorCall`.
-/

/-- JavaScript `\w` word character class: ASCII letters, digits, underscore. -/
def isWordChar (c : Char) : Bool := c.isAlphanum || c = '_'

/-- ASCII lower-casing of a string, the fragment of `toLowerCase` the
insurance module relies on (all its keywords are ASCII). -/
def strLower (s : String) : String := ⟨s.data.map Char.toLower⟩

/-- Substring containment on character lists: `containsList s pat` is true
iff `pat` occurs contiguously in `s` (the semantics of `String.prototype.includes`). -/
def containsList (s pat : List Char) : Bool :=
  match s with
  | [] => pat.isEmpty
  | _ :: rest => pat.isPrefixOf s || containsList rest pat

/-- `strContains s pat` models `s.includes(pat)`. -/
def strContains (s pat : String) : Bool := containsList s.data pat.data

/-- Fuel-driven global literal replacement, the semantics of
`s.replace(new RegExp(escapedLiteral, 'g'), rep)`: scan left to right, replace
each non-overlapping occurrence, continue after the replaced text. -/
def replaceList (fuel : Nat) (s pat rep : List Char) : List Char :=
  match fuel, s with
  | 0, s => s
  | _ + 1, [] => []
  | fuel + 1, c :: rest =>
    if !pat.isEmpty && pat.isPrefixOf (c :: rest) then
      rep ++ replaceList fuel (List.drop pat.length (c :: rest)) pat rep
    else
      c :: replaceList fuel rest pat rep

/-- `strReplaceAll s pat rep` replaces every occurrence of the literal `pat`
in `s` by `rep` (the `new RegExp(key, 'g')` replaces of the source). -/
def strReplaceAll (s pat rep : String) : String :=
  ⟨replaceList s.data.length s.data pat.data rep.data⟩

/-- Digit-string to number: models `parseFloat` on a (comma-stripped) string
drawn from the regex class `[0-9,]+`; the empty string is `NaN`, modelled as
`none`. -/
def parseDigits (s : List Char) : Option Nat :=
  if s.isEmpty then none
  else some (s.foldl (fun acc c => acc * 10 + (c.toNat - 48)) 0)

/-- Comma-grouping of a reversed digit list: groups of three from the least
significant digit, used for `Intl.NumberFormat('en-US')` / `toLocaleString`. -/
def commaGroupRev (fuel : Nat) (ds : List Char) : List Char :=
  match fuel, ds with
  | 0, ds => ds
  | _ + 1, [] => []
  | fuel + 1, ds =>
    if ds.length ≤ 3 then ds
    else ds.take 3 ++ ',' :: commaGroupRev fuel (ds.drop 3)

/-- `n.toLocaleString()` for a whole number: decimal digits with comma
thousands separators. -/
def groupedDecimal (n : Nat) : String :=
  ⟨(commaGroupRev (Nat.repr n).data.length (Nat.repr n).data.reverse).reverse⟩

/-- `Intl.NumberFormat('en-US', {style: 'currency', currency: 'USD',
maximumFractionDigits: 0}).format(n)` for a whole number. -/
def formatUSD (n : Nat) : String := "$" ++ groupedDecimal n

/-- First-occurrence deduplication, the semantics of
`Array.from(new Set(xs))`. -/
def dedupFirstAux (seen : List String) : List String → List String
  | [] => []
  | x :: xs => if seen.contains x then dedupFirstAux seen xs else x :: dedupFirstAux (x :: seen) xs

/-- `Array.from(new Set(xs))`: keeps the first occurrence of each element,
in order. -/
def dedupFirst (l : List String) : List String := dedupFirstAux [] l

/-- The four question categories of `types.ts` (`QuestionCategory`). -/
inductive QuestionCategory where
  | basic
  | health
  | policy
  | claims
deriving DecidableEq

/-- `String(category)`: the literal string value of a category. -/
def QuestionCategory.asString : QuestionCategory → String
  | .basic => "basic"
  | .health => "health"
  | .policy => "policy"
  | .claims => "claims"

/-- `KnowledgeBaseEntry` of `types.ts`; `relatedTerms` is optional in the
interface but present on every entry, and the code reads it as
`entry.relatedTerms || []`, so a plain list is faithful. -/
structure KnowledgeBaseEntry where
  term : String
  definition : String
  category : QuestionCategory
  relatedTerms : List String
deriving DecidableEq

/-- The static table built by `KnowledgeBase.initializeKnowledgeBase`
(`utils/knowledge-base.ts`), in source order. -/
def kbEntries : List KnowledgeBaseEntry := [
  { term := "term life insurance",
    definition := "Insurance that provides coverage for a specific period (term), typically 10, 20, or 30 years, with level premiums and no cash value component.",
    category := .basic,
    relatedTerms := ["whole life insurance", "premium", "death benefit"] },
  { term := "whole life insurance",
    definition := "Permanent life insurance that provides coverage for your entire life, includes a cash value component, and typically has fixed premiums.",
    category := .basic,
    relatedTerms := ["term life insurance", "cash value", "permanent insurance"] },
  { term := "universal life insurance",
    definition := "A type of permanent life insurance with flexible premiums and death benefits, where the cash value earns interest based on current market rates.",
    category := .basic,
    relatedTerms := ["variable life insurance", "whole life insurance", "cash value"] },
  { term := "medical underwriting",
    definition := "The process insurers use to evaluate your health status, medical history, and other factors to determine risk and set premium rates.",
    category := .health,
    relatedTerms := ["medical exam", "no-exam insurance", "risk classification"] },
  { term := "pre-existing condition",
    definition := "A health condition that existed before applying for insurance, which may affect eligibility, premium rates, or coverage limitations.",
    category := .health,
    relatedTerms := ["exclusions", "medical underwriting", "guaranteed issue"] },
  { term := "premium",
    definition := "The amount paid to the insurance company to maintain coverage, which can be paid monthly, quarterly, semi-annually, or annually.",
    category := .policy,
    relatedTerms := ["policy fee", "rate class", "payment mode"] },
  { term := "death benefit",
    definition := "The amount of money paid to beneficiaries upon the insured person's death, which is generally income tax-free.",
    category := .policy,
    relatedTerms := ["beneficiary", "face value", "payout"] },
  { term := "claim process",
    definition := "The procedure beneficiaries follow to receive the death benefit, which typically involves submitting a death certificate and claim form.",
    category := .claims,
    relatedTerms := ["beneficiary", "death benefit", "contestability period"] }
]

/-- The fixed fallback sentence of `KnowledgeBase.findRelevantInformation`. -/
def noSpecificInfo (topic : String) : String :=
  "I don't have specific information about \"" ++ topic ++ "\" in my knowledge base. Would you like to know about term life insurance, whole life insurance, or another insurance topic?"

/-- `KnowledgeBase.findRelevantInformation`: exact case-insensitive term
match; else the head of the partial-match filter (topic contains term or term
contains topic); else the fixed fallback naming the topic. -/
def findRelevantInformation (topic : String) : String :=
  match kbEntries.find? (fun e => strLower e.term == strLower topic) with
  | some exactMatch => exactMatch.definition
  | none =>
    match kbEntries.filter (fun e =>
        strContains (strLower topic) (strLower e.term) ||
        strContains (strLower e.term) (strLower topic)) with
    | firstPartial :: _ => firstPartial.definition
    | [] => noSpecificInfo topic

/-- `KnowledgeBase.getSuggestedQuestions`: related terms of the first entry
whose term occurs in the context (at most 3, each phrased as a question), or
a fixed default list. -/
def getSuggestedQuestions (context : String) : List String :=
  match kbEntries.filter (fun e => strContains (strLower context) (strLower e.term)) with
  | relatedEntry :: _ =>
    (relatedEntry.relatedTerms.map (fun t =>
      match kbEntries.find? (fun e2 => strLower e2.term == strLower t) with
      | some _ => "What is " ++ t ++ "?"
      | none => "Can you tell me about " ++ t ++ "?")).take 3
  | [] =>
    ["What's the difference between term and whole life insurance?",
     "How much coverage do I need?",
     "How do I file a claim?"]

/-- `KnowledgeBase.getRelatedTopics`: the first matching entry's related
terms (at most 3), or the empty list. -/
def getRelatedTopics (context : String) : List String :=
  match kbEntries.filter (fun e => strContains (strLower context) (strLower e.term)) with
  | relatedEntry :: _ => relatedEntry.relatedTerms.take 3
  | [] => []

/-- The call `this.knowledgeBase.getAllTerms()` made by
`ResponseGenerator.extractTermsFromMessages`: the `KnowledgeBase` class in
`utils/knowledge-base.ts` defines no `getAllTerms` method, so at runtime the
call throws `TypeError: this.knowledgeBase.getAllTerms is not a function`.
The absent method is modelled as that thrown error. -/
def getAllTermsError : String :=
  "TypeError: this.knowledgeBase.getAllTerms is not a function"

/-- See `getAllTermsError`: invoking the absent method throws. -/
def getAllTerms : Except String (List String) := .error getAllTermsError

/-- `InsuranceDefinition` of `utils/knowledge-base.ts`. -/
structure InsuranceDefinition where
  term : String
  definition : String
  category : String
deriving DecidableEq

/-- The `PolicyType` interface of `utils/knowledge-base.ts` (named
`PolicyTypeInfo` here because `types.ts` also uses `PolicyType` for the
string union `'term' | 'whole' | 'universal' | 'variable'`). -/
structure PolicyTypeInfo where
  name : String
  description : String
  features : List String
  bestFor : List String
deriving DecidableEq

/-- The `insuranceTerms` table of `utils/knowledge-base.ts`, in source order. -/
def insuranceTerms : List InsuranceDefinition := [
  { term := "Premium",
    definition := "The amount paid regularly to maintain insurance coverage",
    category := "basics" },
  { term := "Death Benefit",
    definition := "The amount paid to beneficiaries upon the insured person's death",
    category := "benefits" },
  { term := "Beneficiary",
    definition := "The person or entity designated to receive the insurance payout",
    category := "basics" },
  { term := "Underwriting",
    definition := "The process of evaluating risk to determine premium rates",
    category := "process" },
  { term := "Cash Value",
    definition := "The savings component of permanent life insurance policies",
    category := "features" }
]

/-- The `policyTypes` table of `utils/knowledge-base.ts`, in source order. -/
def policyTypes : List PolicyTypeInfo := [
  { name := "Term Life Insurance",
    description := "Coverage for a specific period, typically 10-30 years",
    features := ["Lower premiums", "Fixed death benefit", "No cash value component", "Convertible to permanent insurance"],
    bestFor := ["Temporary coverage needs", "Budget-conscious individuals", "Young families", "Mortgage protection"] },
  { name := "Whole Life Insurance",
    description := "Permanent coverage that lasts your entire life",
    features := ["Guaranteed death benefit", "Builds cash value", "Fixed premiums", "Dividend potential"],
    bestFor := ["Lifetime coverage needs", "Estate planning", "Business succession", "Long-term savings goals"] }
]

/-- `findPolicyType`: exact case-insensitive match against the full table
names. -/
def findPolicyType (name : String) : Option PolicyTypeInfo :=
  policyTypes.find? (fun policy => strLower policy.name == strLower name)

/-- `findTerm`: exact case-insensitive match in `insuranceTerms`. -/
def findTerm (searchTerm : String) : Option InsuranceDefinition :=
  insuranceTerms.find? (fun t => strLower t.term == strLower searchTerm)

/-- `commonQuestions.coverage` of `utils/knowledge-base.ts`. -/
def commonQuestionsCoverage : List String :=
  ["How much coverage do I need?",
   "What factors determine my coverage amount?",
   "Can I change my coverage amount later?"]

/-- `commonQuestions.healthRelated` of `utils/knowledge-base.ts`. -/
def commonQuestionsHealthRelated : List String :=
  ["Do I need a medical exam?",
   "How do pre-existing conditions affect my policy?",
   "What health factors impact my premium?"]

/-- `commonQuestions.claims` of `utils/knowledge-base.ts`. -/
def commonQuestionsClaims : List String :=
  ["How do I file a claim?",
   "What documents are needed for a claim?",
   "How long does claim processing take?"]

/-- The runtime shape of the context record built by
`InsuranceService.extractContextFromQuery` (a `Record<string, any>` whose
keys, in insertion order, are `category`, `policyType?`, `coverageAmount?`,
`age?`, `healthStatus?`); it is also what flows into the response
generator's `userData`. A `none` field models an absent key. -/
structure ExtractedContext where
  category : Option QuestionCategory := none
  policyType : Option String := none
  coverageAmount : Option Nat := none
  age : Option Nat := none
  healthStatus : Option String := none
deriving DecidableEq

/-- `Object.entries(userData)` with each value passed through `String(...)`:
the present keys of the context record in insertion order. -/
def contextEntries (u : ExtractedContext) : List (String × String) :=
  (match u.category with | some c => [("category", c.asString)] | none => []) ++
  (match u.policyType with | some p => [("policyType", p)] | none => []) ++
  (match u.coverageAmount with | some a => [("coverageAmount", Nat.repr a)] | none => []) ++
  (match u.age with | some a => [("age", Nat.repr a)] | none => []) ++
  (match u.healthStatus with | some h => [("healthStatus", h)] | none => [])

/-- `FormattedResponse` of `response-generator.ts`; `suggestions` and
`relatedTopics` are optional fields. -/
structure FormattedResponse where
  message : String
  suggestions : Option (List String) := none
  relatedTopics : Option (List String) := none
  confidence : ℚ
deriving DecidableEq

/-- `ResponseContext` of `response-generator.ts`; `userData` carries the
runtime context record (see `ExtractedContext`). -/
structure ResponseContext where
  userQuery : String
  previousMessages : Option (List String) := none
  userData : Option ExtractedContext := none

/-- `ResponseGenerator.analyzeIntent`: ordered substring checks over the
lower-cased query, default `general_insurance_query`. -/
def analyzeIntent (query : String) : String :=
  let lowerQuery := strLower query
  if strContains lowerQuery "term life" || strContains lowerQuery "whole life" ||
     strContains lowerQuery "universal life" || strContains lowerQuery "variable life" then
    "policy_explanation"
  else if strContains lowerQuery "premium" || strContains lowerQuery "cash value" ||
     strContains lowerQuery "beneficiary" || strContains lowerQuery "underwriting" then
    "term_definition"
  else if strContains lowerQuery "how much" || strContains lowerQuery "coverage" ||
     strContains lowerQuery "amount" then
    "coverage_question"
  else if strContains lowerQuery "health" || strContains lowerQuery "medical" ||
     strContains lowerQuery "exam" || strContains lowerQuery "pre-existing" then
    "health_question"
  else if strContains lowerQuery "claim" || strContains lowerQuery "file" ||
     strContains lowerQuery "process" then
    "claims_question"
  else
    "general_insurance_query"

/-- The first step of `ResponseGenerator.applyContext`: for each entry of
`Object.entries(userData)`, replace every `\x7b\x7bkey\x7d\x7d` placeholder by the
entry's value. -/
def substitutePlaceholders (response : String) (u : ExtractedContext) : String :=
  (contextEntries u).foldl
    (fun r kv => strReplaceAll r ("\x7b\x7b" ++ kv.1 ++ "\x7d\x7d") kv.2) response

/-- Word-boundary replacement of `/\b(your coverage|your policy)\b/g` by a
fixed replacement string: scan with the previous original character tracked
for the leading `\b`, try `your coverage` before `your policy`, and require a
non-word character (or the end) after the match. -/
def replaceYourList (fuel : Nat) (prev : Option Char) (s rep : List Char) : List Char :=
  match fuel, s with
  | 0, s => s
  | _ + 1, [] => []
  | fuel + 1, c :: rest =>
    let boundaryBefore := match prev with | none => true | some p => !isWordChar p
    let covPat := "your coverage".data
    let polPat := "your policy".data
    let boundaryAfter := fun (l : List Char) =>
      match l with | [] => true | c2 :: _ => !isWordChar c2
    if boundaryBefore && covPat.isPrefixOf (c :: rest) &&
        boundaryAfter ((c :: rest).drop covPat.length) then
      rep ++ replaceYourList fuel (some 'e') ((c :: rest).drop covPat.length) rep
    else if boundaryBefore && polPat.isPrefixOf (c :: rest) &&
        boundaryAfter ((c :: rest).drop polPat.length) then
      rep ++ replaceYourList fuel (some 'y') ((c :: rest).drop polPat.length) rep
    else
      c :: replaceYourList fuel (some c) rest rep

/-- `response.replace(/\b(your coverage|your policy)\b/g, rep)`. -/
def replaceYourCoveragePolicy (s rep : String) : String :=
  ⟨replaceYourList s.data.length none s.data rep.data⟩

/-- The coverage-amount personalization step of
`ResponseGenerator.applyContext`: guarded by the truthiness of
`userData?.coverageAmount` (0 is falsy), it formats the amount as USD
currency, substitutes the `\x7b\x7bcoverageAmount\x7d\x7d` placeholder, and — when the
updated response mentions `coverage` or `policy` — replaces
`your coverage`/`your policy` (at word boundaries) by the formatted amount. -/
def applyCoverage (response : String) (u : ExtractedContext) : String :=
  match u.coverageAmount with
  | some amount =>
    if amount ≠ 0 then
      let formattedAmount := formatUSD amount
      let r1 := strReplaceAll response "\x7b\x7bcoverageAmount\x7d\x7d" formattedAmount
      if strContains r1 "coverage" || strContains r1 "policy" then
        replaceYourCoveragePolicy r1 ("your " ++ formattedAmount ++ " coverage")
      else r1
    else response
  | none => response

/-- `ResponseGenerator.enhanceWithPolicyDetails`: when the response does not
already contain the policy description, substitute the `\x7b\x7bfeatures\x7d\x7d` and
`\x7b\x7bbestFor\x7d\x7d` placeholders (each only when the corresponding marker word is
present and the comma-joined list is not). `Array.prototype.join()` with no
argument joins with `","`; the replacement text joins with `", "`. -/
def enhanceWithPolicyDetails (response : String) (policyInfo : PolicyTypeInfo) : String :=
  if !strContains response policyInfo.description then
    let r1 :=
      if strContains response "features" &&
          !strContains response (String.intercalate "," policyInfo.features) then
        strReplaceAll response "\x7b\x7bfeatures\x7d\x7d" (String.intercalate ", " policyInfo.features)
      else response
    if strContains r1 "best for" &&
        !strContains r1 (String.intercalate "," policyInfo.bestFor) then
      strReplaceAll r1 "\x7b\x7bbestFor\x7d\x7d" (String.intercalate ", " policyInfo.bestFor)
    else r1
  else response

/-- The policy-type personalization step of `ResponseGenerator.applyContext`:
guarded by the truthiness of `userData?.policyType` (the empty string is
falsy); `findPolicyType` returning nothing leaves the response unchanged. -/
def applyPolicy (response : String) (u : ExtractedContext) : String :=
  match u.policyType with
  | some policyType =>
    if policyType ≠ "" then
      match findPolicyType policyType with
      | some policyInfo => enhanceWithPolicyDetails response policyInfo
      | none => response
    else response
  | none => response

/-- The pronoun back-references scanned for by `applyContext`. -/
def pronounRefs : List String := ["this", "that", "it", "these", "those"]

/-- `ResponseGenerator.extractTermsFromMessages`: collects every knowledge
base term occurring in the messages, deduplicated. Its first step invokes
the absent `getAllTerms` method, so the whole call throws (see
`getAllTerms`); the loops after it are embedded as they are written. -/
def extractTermsFromMessages (messages : List String) : Except String (List String) := do
  let allTerms ← getAllTerms
  let terms := messages.foldl
    (fun acc msg => acc ++ allTerms.filter (fun t => strContains (strLower msg) (strLower t))) []
  pure (dedupFirst terms)

/-- `ResponseGenerator.enrichResponseWithTerms`: for the first extracted
term that `findTerm` resolves, prefix the response with `Regarding <term>, `
unless the response already names the term (case-insensitively). -/
def enrichResponseWithTerms (response : String) (terms : List String) : String :=
  match terms with
  | [] => response
  | term :: _ =>
    match findTerm term with
    | some termInfo =>
      if !strContains (strLower response) (strLower termInfo.term) then
        "Regarding " ++ termInfo.term ++ ", " ++ response
      else response
    | none => response

/-- `ResponseGenerator.applyContext`: placeholder substitution, coverage
personalization and policy personalization (each guarded by the presence of
`userData` or the truthiness of its field), then the conversation-history
step — when the previous messages are non-empty and their last two contain a
pronoun back-reference, terms are extracted from them (which throws, see
`getAllTerms`) and the response is enriched. -/
def applyContext (baseResponse : String) (previousMessages : Option (List String))
    (userData : Option ExtractedContext) : Except String String :=
  let r1 := match userData with | some u => substitutePlaceholders baseResponse u | none => baseResponse
  let r2 := match userData with | some u => applyCoverage r1 u | none => r1
  let r3 := match userData with | some u => applyPolicy r2 u | none => r2
  match previousMessages with
  | some msgs =>
    if msgs.length ≠ 0 then
      let lastTwoMessages := msgs.drop (msgs.length - 2)
      let referencesTerms := lastTwoMessages.any (fun msg =>
        pronounRefs.any (fun ref => strContains (strLower msg) ref))
      if referencesTerms then do
        let potentialTerms ← extractTermsFromMessages lastTwoMessages
        if potentialTerms.length > 0 then
          pure (enrichResponseWithTerms r3 potentialTerms)
        else
          pure r3
      else
        pure r3
    else
      pure r3
  | none => pure r3

/-- `ResponseGenerator.getSuggestionsByCategory`. -/
def getSuggestionsByCategory (category : QuestionCategory) : List String :=
  match category with
  | .basic => commonQuestionsCoverage
  | .health => commonQuestionsHealthRelated
  | .policy =>
    ["What's the difference between term and whole life insurance?",
     "Can I modify my policy after purchase?",
     "How does cash value work in a whole life policy?"]
  | .claims => commonQuestionsClaims

/-- The merge loop of `ResponseGenerator.formatResponse`: start from the
knowledge-base suggestions and push each category suggestion not already
present. -/
def mergeUnique (base extra : List String) : List String :=
  extra.foldl (fun acc s => if acc.contains s then acc else acc ++ [s]) base

/-- The six detail markers of `ResponseGenerator.calculateConfidence`. -/
def detailMarkers : List String :=
  ["feature", "benefit", "cover", "policy", "premium", "underwriting"]

/-- `ResponseGenerator.calculateConfidence`: 0.5 when the response contains
the no-specific-information fallback text, 0.3 when it contains an
apology/trouble phrase, else `min(0.7 + 0.05 * detailCount, 0.95)` for the
number of detail markers present. IEEE-754 rounding is abstracted: the
score is computed in exact rational arithmetic. -/
def calculateConfidence (response : String) : ℚ :=
  if strContains response "I don't have specific information" then (1 : ℚ) / 2
  else if strContains response "I apologize" || strContains response "I'm having trouble" then
    (3 : ℚ) / 10
  else
    let detailCount := (detailMarkers.filter (fun marker => strContains response marker)).length
    min ((7 : ℚ) / 10 + detailCount * ((5 : ℚ) / 100)) ((95 : ℚ) / 100)

/-- `ResponseGenerator.formatResponse`: knowledge-base suggestions for the
response text, merged (when a category is present) with category-specific
suggestions and capped at 3, plus related topics and the confidence score. -/
def formatResponse (response : String) (category : Option QuestionCategory) : FormattedResponse :=
  let suggestions := getSuggestedQuestions response
  let suggestions :=
    match category with
    | some cat => (mergeUnique suggestions (getSuggestionsByCategory cat)).take 3
    | none => suggestions
  { message := response,
    suggestions := some suggestions,
    relatedTopics := some (getRelatedTopics response),
    confidence := calculateConfidence response }

/-- `ResponseGenerator.generateErrorResponse`: a fixed apology message,
three fixed suggestions and confidence 1, independent of the error. -/
def generateErrorResponse (_error : String) : FormattedResponse :=
  { message := "I apologize, but I'm having trouble processing your request. Please try rephrasing your question or contact our support team for assistance.",
    suggestions := some
      ["Can you explain your insurance needs?",
       "What type of coverage are you looking for?",
       "Would you like to speak with an insurance agent?"],
    relatedTopics := none,
    confidence := 1 }

/-- The body of `ResponseGenerator.generateResponse` inside its `try`:
intent analysis, knowledge-base lookup, context application (which can
throw), response formatting. -/
def generateResponseBody (context : ResponseContext) : Except String FormattedResponse := do
  let intent := analyzeIntent context.userQuery
  let relevantInfo := findRelevantInformation intent
  let contextualizedResponse ← applyContext relevantInfo context.previousMessages context.userData
  pure (formatResponse contextualizedResponse (context.userData.bind (·.category)))

/-- `ResponseGenerator.generateResponse`: the body, with any thrown error
converted to `generateErrorResponse`. -/
def generateResponse (context : ResponseContext) : FormattedResponse :=
  match generateResponseBody context with
  | .ok r => r
  | .error e => generateErrorResponse e

/-- The health keyword group of `InsuranceService.categorizeQuestion`. -/
def healthKeywords : List String :=
  ["health", "medical", "exam", "pre-existing", "condition", "diabetes", "smoker"]

/-- The claims keyword group of `InsuranceService.categorizeQuestion`. -/
def claimsKeywords : List String :=
  ["claim", "file", "beneficiary payout", "death certificate", "process claim"]

/-- The policy keyword group of `InsuranceService.categorizeQuestion`. -/
def policyKeywords : List String :=
  ["policy", "coverage", "premium", "cash value", "term", "whole life",
   "universal", "variable", "permanent"]

/-- `InsuranceService.categorizeQuestion`: case-insensitive substring checks
against the keyword groups in the fixed order health, claims, policy, with
default `basic`. The `catch` branch (also returning `basic`) is unreachable:
the body is total. -/
def categorizeQuestion (question : String) : QuestionCategory :=
  let lowerQuestion := strLower question
  if healthKeywords.any (fun k => strContains lowerQuestion k) then .health
  else if claimsKeywords.any (fun k => strContains lowerQuestion k) then .claims
  else if policyKeywords.any (fun k => strContains lowerQuestion k) then .policy
  else .basic

/-- The regex character class `[0-9,]`. -/
def digitComma (c : Char) : Bool := c.isDigit || c = ','

/-- The suffix alternation `(?:k|K|thousand)` of the coverage regex. -/
def covThousandsSuffix (rest : List Char) : Bool :=
  "k".data.isPrefixOf rest || "K".data.isPrefixOf rest || "thousand".data.isPrefixOf rest

/-- The suffix alternation `(?:m|M|million)` of the coverage regex. -/
def covMillionsSuffix (rest : List Char) : Bool :=
  "m".data.isPrefixOf rest || "M".data.isPrefixOf rest || "million".data.isPrefixOf rest

/-- The suffix ` (?:thousand|million) dollars` of the coverage regex's third
alternative. -/
def covWordsSuffix (rest : List Char) : Bool :=
  " thousand dollars".data.isPrefixOf rest || " million dollars".data.isPrefixOf rest

/-- Greedy backtracking of `([0-9,]+)`: `digitsRev` is the reversed
still-consumed run, `rest` the text after it; the longest non-empty prefix
of the run whose remainder satisfies `suffixOk` is the captured group. -/
def shrinkDigits (suffixOk : List Char → Bool) : List Char → List Char → Option (List Char)
  | [], _ => none
  | c :: digitsRev, rest =>
    if suffixOk rest then some ((c :: digitsRev).reverse)
    else shrinkDigits suffixOk digitsRev (c :: rest)

/-- One of the two `\$([0-9,]+)(?:...)` alternatives of the coverage regex,
attempted at the current position: a literal `$`, a greedy `[0-9,]+` run,
then the given suffix alternation. Returns the captured digit group. -/
def altDollar (suffixOk : List Char → Bool) (s : List Char) : Option (List Char) :=
  match s with
  | '$' :: rest =>
    shrinkDigits suffixOk (rest.takeWhile digitComma).reverse (rest.dropWhile digitComma)
  | _ => none

/-- The third alternative `([0-9,]+) (?:thousand|million) dollars`,
attempted at the current position. -/
def altWordsDollars (s : List Char) : Option (List Char) :=
  shrinkDigits covWordsSuffix (s.takeWhile digitComma).reverse (s.dropWhile digitComma)

/-- Which alternative of the coverage regex matched, with the captured
digit group (`match[1]`, `match[2]` or `match[3]`). -/
inductive CoverageGroup where
  | thousandsGroup (digits : List Char)
  | millionsGroup (digits : List Char)
  | wordsGroup (digits : List Char)
deriving DecidableEq

/-- `query.match(/\$([0-9,]+)(?:k|K|thousand)|\$([0-9,]+)(?:m|M|million)|([0-9,]+) (?:thousand|million) dollars/)`:
scan start positions left to right, trying the three alternatives in order
at each; the first match wins. -/
def coverageScan : List Char → Option CoverageGroup
  | [] => none
  | c :: rest =>
    match altDollar covThousandsSuffix (c :: rest) with
    | some d => some (.thousandsGroup d)
    | none =>
      match altDollar covMillionsSuffix (c :: rest) with
      | some d => some (.millionsGroup d)
      | none =>
        match altWordsDollars (c :: rest) with
        | some d => some (.wordsGroup d)
        | none => coverageScan rest

/-- JavaScript `\s` on the inputs in scope: whitespace. -/
def isWS (c : Char) : Bool := c.isWhitespace

/-- Trailing `\b` of the age regex: end of input or a non-word character. -/
def wordBoundAfter (l : List Char) : Bool :=
  match l with | [] => true | c :: _ => !isWordChar c

/-- The rests reachable by `(?:years?\s*old|year-old|yo)` at `w`, in
backtracking order (`years…old`, `year…old`, `year-old`, `yo`); the inner
`\s*` is safely greedy because `old` starts with a non-whitespace character. -/
def ageAltRests (w : List Char) : List (List Char) :=
  (if "years".data.isPrefixOf w then
    (let u := (w.drop 5).dropWhile isWS
     if "old".data.isPrefixOf u then [u.drop 3] else [])
   else []) ++
  (if "year".data.isPrefixOf w then
    (let u := (w.drop 4).dropWhile isWS
     if "old".data.isPrefixOf u then [u.drop 3] else [])
   else []) ++
  (if "year-old".data.isPrefixOf w then [w.drop 8] else []) ++
  (if "yo".data.isPrefixOf w then [w.drop 2] else [])

/-- Whether `\s*(?:years?\s*old|year-old|yo)\b` matches at `t` (the text
right after the digit group): the outer `\s*` is safely greedy because every
alternative starts with `y`, and the trailing `\b` is checked for each
alternative in backtracking order. -/
def ageTail (t : List Char) : Bool :=
  (ageAltRests (t.dropWhile isWS)).any wordBoundAfter

/-- `query.match(/\b(\d{1,2})\s*(?:years?\s*old|year-old|yo)\b/)`: scan
start positions with the previous character tracked for the leading `\b`;
at a boundary digit, try the greedy two-digit group first, then one digit.
Returns the captured digit group. -/
def ageScan (prev : Option Char) : List Char → Option (List Char)
  | [] => none
  | c :: rest =>
    let boundary := match prev with | none => true | some p => !isWordChar p
    if boundary && c.isDigit then
      match rest with
      | d2 :: rest2 =>
        if d2.isDigit && ageTail rest2 then some [c, d2]
        else if ageTail rest then some [c]
        else ageScan (some c) rest
      | [] => if ageTail rest then some [c] else ageScan (some c) rest
    else ageScan (some c) rest

/-- Numeric value of a non-empty digit group (`parseInt(d, 10)`). -/
def digitsToNat (ds : List Char) : Nat :=
  ds.foldl (fun acc c => acc * 10 + (c.toNat - 48)) 0

/-- `InsuranceService.extractContextFromQuery`: policy-type detection by a
fixed substring chain over the lower-cased query, coverage amount via the
coverage regex with per-alternative normalization (kept only when positive;
a `NaN` from an all-commas group is `none`), age via the age regex (kept
only in the open interval (0, 120)), and health status by a fixed keyword
chain. -/
def extractContextFromQuery (query : String) (category : QuestionCategory) : ExtractedContext :=
  let lq := strLower query
  let policyType :=
    if strContains lq "term life" then some "term"
    else if strContains lq "whole life" then some "whole"
    else if strContains lq "universal life" then some "universal"
    else if strContains lq "variable life" then some "variable"
    else none
  let coverageAmount :=
    match coverageScan query.data with
    | some g =>
      let amount : Option Nat :=
        match g with
        | .thousandsGroup d => (parseDigits (d.filter (· ≠ ','))).map (· * 1000)
        | .millionsGroup d => (parseDigits (d.filter (· ≠ ','))).map (· * 1000000)
        | .wordsGroup d =>
          (parseDigits (d.filter (· ≠ ','))).map (fun v =>
            if strContains query "million" then v * 1000000 else v * 1000)
      match amount with
      | some a => if a > 0 then some a else none
      | none => none
    | none => none
  let age :=
    match ageScan none query.data with
    | some ds =>
      let a := digitsToNat ds
      if 0 < a ∧ a < 120 then some a else none
    | none => none
  let healthStatus :=
    if strContains lq "diabetes" || strContains lq "high blood pressure" ||
        strContains lq "heart condition" then some "pre-existing condition"
    else if strContains lq "smoker" || strContains lq "smoke cigarettes" then some "smoker"
    else if strContains lq "excellent health" || strContains lq "good health" then
      some "good health"
    else none
  { category := some category, policyType := policyType, coverageAmount := coverageAmount,
    age := age, healthStatus := healthStatus }

/-- `InsuranceServiceConfig` of `types.ts` (model, temperature, maxTokens).
`processQuery` additionally reads `config.useAI`, a property absent from the
interface and from `DEFAULT_INSURANCE_CONFIG` (so `undefined` unless a caller
supplies an extended object); it is modelled as an optional field. -/
structure InsuranceServiceConfig where
  model : String
  temperature : ℚ
  maxTokens : Nat
  useAI : Option Bool := none

/-- `DEFAULT_INSURANCE_CONFIG` of the module index. -/
def DEFAULT_INSURANCE_CONFIG : InsuranceServiceConfig :=
  { model := "gpt-3.5-turbo", temperature := 7 / 10, maxTokens := 200 }

/-- `InsuranceService.generateInsurancePrompt`: the system prompt template
with one optional line per known context field, the category line
(defaulting to `basic`), and the user query. -/
def generateInsurancePrompt (query : String) (context : ExtractedContext) : String :=
  let systemPrompt :=
    "You are an expert insurance advisor specializing in life and health insurance. \nProvide helpful, accurate, and concise responses about insurance topics.\nBase your responses on factual information about insurance products, policies, and industry standards.\nAlways maintain a professional and supportive tone.\n\n" ++
    (match context.policyType with
     | some pt => if pt ≠ "" then "The user is asking about " ++ pt ++ " life insurance." else ""
     | none => "") ++ "\n" ++
    (match context.coverageAmount with
     | some a => if a ≠ 0 then "The user is interested in coverage around $" ++ groupedDecimal a ++ "." else ""
     | none => "") ++ "\n" ++
    (match context.healthStatus with
     | some h => if h ≠ "" then "The user has mentioned " ++ h ++ " as a health consideration." else ""
     | none => "") ++ "\n" ++
    (match context.age with
     | some a => if a ≠ 0 then "The user is " ++ Nat.repr a ++ " years old." else ""
     | none => "") ++ "\n\nCurrent conversation category: " ++
    (match context.category with | some c => c.asString | none => "basic")
  systemPrompt ++ "\n\nUser: " ++ query ++ "\n\nAssistant:"

/-- `InsuranceService.enhanceResponseWithKnowledgeBase`: look up relevant
information for the query; resolve the context's policy type (when truthy)
through `findPolicyType`; append at most one `Additional information:`
sentence — the policy description if present and not already contained in
the AI reply (case-insensitively), else the relevant information under the
same condition. The body is total, so its `catch` branch is unreachable. -/
def enhanceResponseWithKnowledgeBase (aiResponse : String) (query : String)
    (context : ExtractedContext) (_category : QuestionCategory) : String :=
  let relevantInfo := findRelevantInformation query
  if relevantInfo = "" then aiResponse
  else
    let policyInfo : Option PolicyTypeInfo :=
      match context.policyType with
      | some pt => if pt ≠ "" then findPolicyType pt else none
      | none => none
    match policyInfo with
    | some pi =>
      if !strContains (strLower aiResponse) (strLower pi.description) then
        aiResponse ++ "\n\nAdditional information: " ++ pi.description
      else if !strContains (strLower aiResponse) (strLower relevantInfo) then
        aiResponse ++ "\n\nAdditional information: " ++ relevantInfo
      else aiResponse
    | none =>
      if !strContains (strLower aiResponse) (strLower relevantInfo) then
        aiResponse ++ "\n\nAdditional information: " ++ relevantInfo
      else aiResponse

/-- The condition `modelOverride || this.config.useAI !== false` guarding
the AI path of `processQuery` (a string is truthy when non-empty; an absent
`useAI` is not `false`). -/
def aiPathEnabled (config : InsuranceServiceConfig) (modelOverride : Option String) : Bool :=
  (match modelOverride with | some s => !s.isEmpty | none => false) ||
    config.useAI != some false

/-- The fixed sentence of `processQuery`'s outermost `catch`. -/
def troubleSentence : String :=
  "Sorry, I'm having trouble answering that question about insurance. Please try rephrasing it or ask something else."

/-- The body of `InsuranceService.processQuery` inside its outermost `try`:
categorize, extract context, then either the AI path — the LLM boundary
`llm` invoked on the generated prompt, its reply enhanced with the knowledge
base; on rejection the `catch (aiError)` falls back to the response
generator `rg` — or, when AI is disabled, `rg` directly. A rejection of `rg`
itself propagates. -/
def processQueryBody (config : InsuranceServiceConfig)
    (llm : String → Except String String)
    (rg : ResponseContext → Except String FormattedResponse)
    (query : String) (modelOverride : Option String) : Except String String :=
  let category := categorizeQuestion query
  let context := extractContextFromQuery query category
  if aiPathEnabled config modelOverride then
    match llm (generateInsurancePrompt query context) with
    | .ok completionText =>
      .ok (enhanceResponseWithKnowledgeBase completionText query context category)
    | .error _ =>
      (rg { userQuery := query, userData := some context }).map (·.message)
  else
    (rg { userQuery := query, userData := some context }).map (·.message)

/-- `InsuranceService.processQuery`: the body with the outermost `catch`
that resolves any error to the fixed trouble sentence. -/
def processQuery (config : InsuranceServiceConfig)
    (llm : String → Except String String)
    (rg : ResponseContext → Except String FormattedResponse)
    (query : String) (modelOverride : Option String) : Except String String :=
  match processQueryBody config llm rg query modelOverride with
  | .ok s => .ok s
  | .error _ => .ok troubleSentence

/-- The concrete response-generator collaborator held by the service:
`generateResponse` resolves on every input (its internal `catch` returns
the error response), so the call never rejects. -/
def responseGeneratorCall : ResponseContext → Except String FormattedResponse :=
  fun context => .ok (generateResponse context)

/-- `InsuranceService.generateFollowUpQuestions`: topic questions from the
related topics of the query, then category-specific canned questions,
deduplicated and capped at 3. The body is total, so the `catch` branch
returning three generic questions is unreachable. -/
def generateFollowUpQuestions (category : QuestionCategory) (query : String) : List String :=
  let relatedTopics := getRelatedTopics query
  let topicQuestions := relatedTopics.map (fun topic => "What can you tell me about " ++ topic ++ "?")
  let categoryQuestions : List String :=
    match category with
    | .basic =>
      ["What types of life insurance are available?",
       "How much coverage do I need?",
       "What affects my insurance premium cost?"]
    | .health =>
      ["How do health conditions affect my coverage?",
       "Do I need a medical exam for insurance?",
       "Can I get insurance with pre-existing conditions?"]
    | .policy =>
      ["What's the difference between term and whole life?",
       "Can I modify my policy after purchase?",
       "How do premiums change over time?"]
    | .claims =>
      ["What documents are needed for a claim?",
       "How long does the claims process take?",
       "Who can file a claim?"]
  (dedupFirst (topicQuestions ++ categoryQuestions)).take 3

/-- Message roles of `InsuranceMessage` (`useInsuranceChat.ts`). -/
inductive MessageRole where
  | user
  | assistant
deriving DecidableEq

/-- `InsuranceMessage` of `useInsuranceChat.ts`; the timestamp is an
abstract tick. -/
structure InsuranceMessage where
  content : String
  role : MessageRole
  timestamp : Nat
  category : Option QuestionCategory := none
  suggestions : Option (List String) := none
deriving DecidableEq

/-- The state owned by `useInsuranceChat`: the message list, loading and
error flags, the suggestion list, and the running context accumulator
(`contextRef.current`). -/
structure ChatState where
  messages : List InsuranceMessage
  isLoading : Bool
  error : Option String
  suggestions : List String
  contextAccum : ExtractedContext
deriving DecidableEq

/-- The spread `{...contextRef.current, ...extractedContext}`: keys present
in the extracted record win, absent keys keep the accumulated value. -/
def mergeContext (prev ext : ExtractedContext) : ExtractedContext :=
  { category := ext.category <|> prev.category,
    policyType := ext.policyType <|> prev.policyType,
    coverageAmount := ext.coverageAmount <|> prev.coverageAmount,
    age := ext.age <|> prev.age,
    healthStatus := ext.healthStatus <|> prev.healthStatus }

/-- The state of `sendMessage` after its synchronous head: loading set,
error cleared, the user message appended optimistically before any
processing (at tick `t1`). -/
def sendMessageMid (s : ChatState) (content : String) (t1 : Nat) : ChatState :=
  { s with
    isLoading := true,
    error := none,
    messages := s.messages ++ [{ content := content, role := .user, timestamp := t1 }] }

/-- `useInsuranceChat.sendMessage` for one turn: the optimistic head
(`sendMessageMid`), categorization, context extraction merged into the
accumulator, then the `processQuery` outcome — on resolution the assistant
message (at tick `t2`, carrying the category and follow-up suggestions) is
appended and the suggestion list updated; on rejection the `catch` records
the error and appends nothing; `finally` clears the loading flag. -/
def sendMessage (s : ChatState) (content : String) (t1 t2 : Nat)
    (processOutcome : Except String String) : ChatState :=
  let mid := sendMessageMid s content t1
  let category := categorizeQuestion content
  let extractedContext := extractContextFromQuery content category
  let mid := { mid with contextAccum := mergeContext mid.contextAccum extractedContext }
  match processOutcome with
  | .ok response =>
    let followUpSuggestions := generateFollowUpQuestions category content
    let assistantMessage : InsuranceMessage :=
      { content := response, role := .assistant, timestamp := t2,
        category := some category, suggestions := some followUpSuggestions }
    { mid with
      messages := mid.messages ++ [assistantMessage],
      suggestions := if followUpSuggestions.length > 0 then followUpSuggestions else [],
      isLoading := false }
  | .error e => { mid with error := some e, isLoading := false }

/-- Restatement of the spec's lookup rule for `findRelevantInformation`
using first-match (`find?`) in table order, for comparison with the
source's filter-then-head implementation. -/
def findRelevantInformationFirstMatch (topic : String) : String :=
  match kbEntries.find? (fun e => strLower e.term == strLower topic) with
  | some e => e.definition
  | none =>
    match kbEntries.find? (fun e =>
        strContains (strLower topic) (strLower e.term) ||
        strContains (strLower e.term) (strLower topic)) with
    | some e => e.definition
    | none => noSpecificInfo topic

/-- `enhanceResponseWithKnowledgeBase` with the policy-type branch removed:
the comparison point for the claim that the branch is never taken for
contexts produced by the extractor. -/
def enhanceNoPolicy (aiResponse : String) (query : String) : String :=
  let relevantInfo := findRelevantInformation query
  if relevantInfo = "" then aiResponse
  else
    if !strContains (strLower aiResponse) (strLower relevantInfo) then
      aiResponse ++ "\n\nAdditional information: " ++ relevantInfo
    else aiResponse

/-- `applyContext` with the policy-type personalization step removed: the
comparison point for the claim that the step is inert for contexts produced
by the extractor. -/
def applyContextSansPolicy (baseResponse : String) (previousMessages : Option (List String))
    (userData : Option ExtractedContext) : Except String String :=
  let r1 := match userData with | some u => substitutePlaceholders baseResponse u | none => baseResponse
  let r2 := match userData with | some u => applyCoverage r1 u | none => r1
  match previousMessages with
  | some msgs =>
    if msgs.length ≠ 0 then
      let lastTwoMessages := msgs.drop (msgs.length - 2)
      let referencesTerms := lastTwoMessages.any (fun msg =>
        pronounRefs.any (fun ref => strContains (strLower msg) ref))
      if referencesTerms then do
        let potentialTerms ← extractTermsFromMessages lastTwoMessages
        if potentialTerms.length > 0 then
          pure (enrichResponseWithTerms r2 potentialTerms)
        else
          pure r2
      else
        pure r2
    else
      pure r2
  | none => pure r2

/-- The state `useInsuranceChat` starts from with no stored history and no
initial messages. -/
def initialChatState : ChatState :=
  { messages := [], isLoading := false, error := none, suggestions := [], contextAccum := {} }

theorem head?_filter_eq_find? {α : Type} (p : α → Bool) (l : List α) :
    (l.filter p).head? = l.find? p := by
  induction l with
  | nil => rfl
  | cons a t ih =>
    by_cases h : p a
    · simp [List.filter_cons, List.find?_cons, h]
    · simp [List.filter_cons, List.find?_cons, h, ih]

/-- C1: for the input `I want a $500,000 term life policy`, the claim says
`extractContextFromQuery` extracts `policyType = "term"` and
`coverageAmount = 500000` (the coverage regex matching `$500,000`). The code
extracts the policy type, but its coverage regex requires a
`k`/`K`/`thousand` or `m`/`M`/`million` suffix (or the
`N thousand/million dollars` wording), so `$500,000` produces no match at
all and no `coverageAmount` field is set. This theorem evaluates the code at
that input. -/
theorem extract_500k_query_has_no_coverageAmount :
    categorizeQuestion "I want a $500,000 term life policy" = .policy
    ∧ (extractContextFromQuery "I want a $500,000 term life policy" .policy).policyType =
        some "term"
    ∧ (extractContextFromQuery "I want a $500,000 term life policy" .policy).coverageAmount =
        none
    ∧ coverageScan "I want a $500,000 term life policy".data = none := by
  refine ⟨?_, ?_, ?_, ?_⟩ <;> decide

/-- Helper for C2: whenever the previous messages are non-empty and their
last two contain a pronoun back-reference, `applyContext` throws the
`getAllTerms` TypeError. -/
theorem applyContext_throws (r : String) (prev : List String) (ud : Option ExtractedContext)
    (hlen : prev.length ≠ 0)
    (href : (prev.drop (prev.length - 2)).any (fun msg =>
        pronounRefs.any (fun ref => strContains (strLower msg) ref)) = true) :
    applyContext r (some prev) ud = .error getAllTermsError := by
  unfold applyContext
  simp only [hlen, if_true, href, if_false, ite_not]
  rfl

/-- C2: the claim says that when the previous messages are non-empty, their
last two contain a pronoun back-reference and mention a known term,
`generateResponse` returns the contextualized response prefixed with
`Regarding <term>, ` (or unprefixed when the term is already named). On the
code, reaching that path calls the absent `KnowledgeBase.getAllTerms`
method, which throws; `generateResponse` catches the error and returns the
fixed apology error response (confidence 1) instead, for every such input —
whether or not a known term is mentioned. -/
theorem generateResponse_pronoun_backref_throws (q : String) (prev : List String)
    (ud : Option ExtractedContext) (hne : prev ≠ [])
    (href : (prev.drop (prev.length - 2)).any (fun msg =>
        pronounRefs.any (fun ref => strContains (strLower msg) ref)) = true) :
    generateResponse { userQuery := q, previousMessages := some prev, userData := ud } =
      { message := "I apologize, but I'm having trouble processing your request. Please try rephrasing your question or contact our support team for assistance.",
        suggestions := some
          ["Can you explain your insurance needs?",
           "What type of coverage are you looking for?",
           "Would you like to speak with an insurance agent?"],
        relatedTopics := none,
        confidence := 1 } := by
  have hlen : prev.length ≠ 0 := by simpa using hne
  have hac := applyContext_throws (findRelevantInformation (analyzeIntent q)) prev ud hlen href
  unfold generateResponse generateResponseBody
  simp only [hac, Except.bind]
  rfl

/-- Witness for C2: previous message `Tell me more about that premium`
(pronoun `that`, known term `premium`), query `How much does it pay out?` —
the result is the fixed apology error response, not a `Regarding premium, `
prefix. -/
theorem generateResponse_pronoun_backref_throws_witness :
    (["Tell me more about that premium"] ≠ ([] : List String))
    ∧ ((["Tell me more about that premium"].drop
          ((["Tell me more about that premium"] : List String).length - 2)).any
        (fun msg => pronounRefs.any (fun ref => strContains (strLower msg) ref)) = true)
    ∧ generateResponse
        { userQuery := "How much does it pay out?",
          previousMessages := some ["Tell me more about that premium"],
          userData := none } =
      { message := "I apologize, but I'm having trouble processing your request. Please try rephrasing your question or contact our support team for assistance.",
        suggestions := some
          ["Can you explain your insurance needs?",
           "What type of coverage are you looking for?",
           "Would you like to speak with an insurance agent?"],
        relatedTopics := none,
        confidence := 1 } :=
  ⟨by decide, by decide,
    generateResponse_pronoun_backref_throws "How much does it pay out?"
      ["Tell me more about that premium"] none (by decide) (by decide)⟩

/-- C3: every text containing one of the seven health keywords
(case-insensitively) is categorized `health`, regardless of which claims or
policy keywords it also contains; a text containing no keyword of any group
is categorized `basic`. -/
theorem categorizeQuestion_health_first_basic_default (q : String) :
    (healthKeywords.any (fun k => strContains (strLower q) k) = true →
      categorizeQuestion q = .health)
    ∧ ((healthKeywords ++ claimsKeywords ++ policyKeywords).all
        (fun k => !strContains (strLower q) k) = true →
      categorizeQuestion q = .basic) := by
  constructor
  · intro h
    unfold categorizeQuestion
    simp only [h, if_true]
  · intro h
    simp only [List.all_append, Bool.and_eq_true, List.all_eq_true,
      Bool.not_eq_true'] at h
    obtain ⟨⟨h1, h2⟩, h3⟩ := h
    unfold categorizeQuestion
    have e1 : healthKeywords.any (fun k => strContains (strLower q) k) = false := by
      simp [List.any_eq_false]; exact fun k hk => h1 k hk
    have e2 : claimsKeywords.any (fun k => strContains (strLower q) k) = false := by
      simp [List.any_eq_false]; exact fun k hk => h2 k hk
    have e3 : policyKeywords.any (fun k => strContains (strLower q) k) = false := by
      simp [List.any_eq_false]; exact fun k hk => h3 k hk
    simp only [e1, e2, e3, Bool.false_eq_true, if_false]

/-- Witness for C3: a query with health, policy and claims keywords is
categorized `health`; a keyword-free query is categorized `basic`. -/
theorem categorizeQuestion_health_first_basic_default_witness :
    (healthKeywords.any (fun k =>
        strContains (strLower "Do I need a medical exam for my policy claim?") k) = true)
    ∧ categorizeQuestion "Do I need a medical exam for my policy claim?" = .health
    ∧ ((healthKeywords ++ claimsKeywords ++ policyKeywords).all
        (fun k => !strContains (strLower "hello there") k) = true)
    ∧ categorizeQuestion "hello there" = .basic :=
  ⟨by decide,
   (categorizeQuestion_health_first_basic_default
     "Do I need a medical exam for my policy claim?").1 (by decide),
   by decide,
   (categorizeQuestion_health_first_basic_default "hello there").2 (by decide)⟩

/-- C4: when the AI path is enabled and the model invocation rejects,
`processQuery` resolves with the Response Generator's message for the same
query and extracted context (a silent degrade, not a failure); in the hook,
`sendMessage` on that resolved outcome leaves the error state `none` and
still appends the assistant message for the turn. -/
theorem processQuery_model_failure_falls_back (config : InsuranceServiceConfig)
    (llm : String → Except String String) (query : String) (modelOverride : Option String)
    (e : String) (s : ChatState) (t1 t2 : Nat)
    (hai : aiPathEnabled config modelOverride = true)
    (hllm : llm (generateInsurancePrompt query
        (extractContextFromQuery query (categorizeQuestion query))) = .error e) :
    processQuery config llm responseGeneratorCall query modelOverride =
      .ok ((generateResponse
        { userQuery := query,
          userData := some (extractContextFromQuery query (categorizeQuestion query)) }).message)
    ∧ (sendMessage s query t1 t2
        (processQuery config llm responseGeneratorCall query modelOverride)).error = none
    ∧ (sendMessage s query t1 t2
        (processQuery config llm responseGeneratorCall query modelOverride)).messages =
      s.messages ++
        [{ content := query, role := .user, timestamp := t1 },
         { content := (generateResponse
              { userQuery := query,
                userData := some (extractContextFromQuery query (categorizeQuestion query)) }).message,
           role := .assistant, timestamp := t2,
           category := some (categorizeQuestion query),
           suggestions := some (generateFollowUpQuestions (categorizeQuestion query) query) }] := by
  have hpq : processQuery config llm responseGeneratorCall query modelOverride =
      .ok ((generateResponse
        { userQuery := query,
          userData := some (extractContextFromQuery query (categorizeQuestion query)) }).message) := by
    unfold processQuery processQueryBody
    simp only [hai, if_true, hllm]
    rfl
  refine ⟨hpq, ?_, ?_⟩
  · rw [hpq]
    simp [sendMessage, sendMessageMid]
  · rw [hpq]
    simp [sendMessage, sendMessageMid]

/-- Witness for C4: with the default configuration and an LLM boundary that
always rejects, `processQuery` resolves with the generator's message and the
hook records no error. -/
theorem processQuery_model_failure_falls_back_witness :
    aiPathEnabled DEFAULT_INSURANCE_CONFIG none = true
    ∧ processQuery DEFAULT_INSURANCE_CONFIG (fun _ => .error "network error")
        responseGeneratorCall "hello" none =
      .ok ((generateResponse
        { userQuery := "hello",
          userData := some (extractContextFromQuery "hello" (categorizeQuestion "hello")) }).message)
    ∧ (sendMessage initialChatState "hello" 0 1
        (processQuery DEFAULT_INSURANCE_CONFIG (fun _ => .error "network error")
          responseGeneratorCall "hello" none)).error = none :=
  ⟨by decide,
   (processQuery_model_failure_falls_back DEFAULT_INSURANCE_CONFIG
     (fun _ => .error "network error") "hello" none "network error"
     initialChatState 0 1 (by decide) (by rfl)).1,
   (processQuery_model_failure_falls_back DEFAULT_INSURANCE_CONFIG
     (fun _ => .error "network error") "hello" none "network error"
     initialChatState 0 1 (by decide) (by rfl)).2.1⟩

/-- C5: `findRelevantInformation` returns the definition of the exact
case-insensitive term match when one exists; otherwise the definition of the
first entry in table order with a partial match (topic contains term, or
term contains topic, case-insensitively); otherwise the fixed
no-specific-information fallback naming the topic and offering example
topics. -/
theorem findRelevantInformation_first_match_rule (topic : String) :
    findRelevantInformation topic = findRelevantInformationFirstMatch topic := by
  unfold findRelevantInformation findRelevantInformationFirstMatch
  cases hf : kbEntries.find? (fun e => strLower e.term == strLower topic) with
  | some e => simp
  | none =>
    simp only []
    have h2 := head?_filter_eq_find? (fun e =>
      strContains (strLower topic) (strLower e.term) ||
      strContains (strLower e.term) (strLower topic)) kbEntries
    cases hl : kbEntries.filter (fun e =>
        strContains (strLower topic) (strLower e.term) ||
        strContains (strLower e.term) (strLower topic)) with
    | nil => rw [hl] at h2; simp at h2; rw [← h2]
    | cons a t => rw [hl] at h2; simp at h2; rw [← h2]

/-- C6: the confidence is 0.5 when the response contains the
no-specific-information fallback text, else 0.3 when it contains an
apology/trouble phrase, else `min(0.7 + 0.05 * n, 0.95)` for the number `n`
of the six detail keywords present; and it always lies in `[0, 1]`. -/
theorem calculateConfidence_cases_and_bounds (r : String) :
    calculateConfidence r =
      (if strContains r "I don't have specific information" then (1 : ℚ) / 2
       else if strContains r "I apologize" || strContains r "I'm having trouble" then
         (3 : ℚ) / 10
       else
         min ((7 : ℚ) / 10 +
            ((detailMarkers.filter (fun marker => strContains r marker)).length : ℚ) *
              ((5 : ℚ) / 100)) ((95 : ℚ) / 100))
    ∧ 0 ≤ calculateConfidence r ∧ calculateConfidence r ≤ 1 := by
  refine ⟨rfl, ?_, ?_⟩
  · unfold calculateConfidence
    split_ifs with h1 h2
    · norm_num
    · norm_num
    · refine le_min ?_ (by norm_num)
      have : (0 : ℚ) ≤ ((detailMarkers.filter (fun marker => strContains r marker)).length : ℚ) :=
        Nat.cast_nonneg _
      nlinarith
  · unfold calculateConfidence
    split_ifs with h1 h2
    · norm_num
    · norm_num
    · exact le_trans (min_le_right _ _) (by norm_num)

/-- C7: whenever the body of `generateResponse` throws, the returned
`FormattedResponse` is exactly the fixed apology message, the three fixed
generic suggestions and confidence 1, independent of the input. -/
theorem generateResponse_error_path_is_fixed (context : ResponseContext) (e : String)
    (h : generateResponseBody context = .error e) :
    generateResponse context =
      { message := "I apologize, but I'm having trouble processing your request. Please try rephrasing your question or contact our support team for assistance.",
        suggestions := some
          ["Can you explain your insurance needs?",
           "What type of coverage are you looking for?",
           "Would you like to speak with an insurance agent?"],
        relatedTopics := none,
        confidence := 1 } := by
  unfold generateResponse
  rw [h]
  rfl

/-- Witness for C7: the body throws at a concrete input (a previous message
containing `it` reaches the absent `getAllTerms` method) and the result is
the fixed error response. -/
theorem generateResponse_error_path_is_fixed_witness :
    generateResponseBody
        { userQuery := "What does it cost?", previousMessages := some ["I like it"],
          userData := none } = .error getAllTermsError
    ∧ generateResponse
        { userQuery := "What does it cost?", previousMessages := some ["I like it"],
          userData := none } =
      { message := "I apologize, but I'm having trouble processing your request. Please try rephrasing your question or contact our support team for assistance.",
        suggestions := some
          ["Can you explain your insurance needs?",
           "What type of coverage are you looking for?",
           "Would you like to speak with an insurance agent?"],
        relatedTopics := none,
        confidence := 1 } :=
  ⟨by rfl, generateResponse_error_path_is_fixed _ getAllTermsError (by rfl)⟩

/-- C8: starting from an even-length message list, the in-flight state
(after the optimistic user append) has odd length; a completed turn appends
exactly the user message then the assistant message (even length, error
cleared); a failed turn keeps only the user append (odd length), sets the
error and appends no assistant message. -/
theorem sendMessage_turn_parity (s : ChatState) (content : String) (t1 t2 : Nat)
    (o : Except String String) (h : s.messages.length % 2 = 0) :
    (sendMessageMid s content t1).messages.length % 2 = 1
    ∧ (∀ r, o = .ok r →
        (sendMessage s content t1 t2 o).messages =
          s.messages ++
            [{ content := content, role := .user, timestamp := t1 },
             { content := r, role := .assistant, timestamp := t2,
               category := some (categorizeQuestion content),
               suggestions := some (generateFollowUpQuestions (categorizeQuestion content) content) }]
        ∧ (sendMessage s content t1 t2 o).messages.length % 2 = 0
        ∧ (sendMessage s content t1 t2 o).error = none)
    ∧ (∀ e, o = .error e →
        (sendMessage s content t1 t2 o).messages = (sendMessageMid s content t1).messages
        ∧ (sendMessage s content t1 t2 o).messages.length % 2 = 1
        ∧ (sendMessage s content t1 t2 o).error = some e) := by
  refine ⟨?_, ?_, ?_⟩
  · simp [sendMessageMid]
    omega
  · rintro r rfl
    refine ⟨?_, ?_, ?_⟩
    · simp [sendMessage, sendMessageMid]
    · simp [sendMessage, sendMessageMid]
      omega
    · simp [sendMessage, sendMessageMid]
  · rintro e rfl
    refine ⟨?_, ?_, ?_⟩
    · simp [sendMessage, sendMessageMid]
    · simp [sendMessage, sendMessageMid]
      omega
    · simp [sendMessage, sendMessageMid]

/-- Witness for C8: from the empty initial state, the in-flight state has
one message, and a failed turn records the error. -/
theorem sendMessage_turn_parity_witness :
    initialChatState.messages.length % 2 = 0
    ∧ (sendMessageMid initialChatState "Hello" 0).messages.length % 2 = 1
    ∧ (sendMessage initialChatState "Hello" 0 1 (.error "boom")).error = some "boom" :=
  ⟨by decide,
   (sendMessage_turn_parity initialChatState "Hello" 0 1 (.error "boom") (by decide)).1,
   ((sendMessage_turn_parity initialChatState "Hello" 0 1 (.error "boom") (by decide)).2.2
     "boom" rfl).2.2⟩

/-- C9: `processQuery` is total at its public interface: for every query,
configuration, model override and behavior of its two fallible
collaborators, it resolves to a string; and whenever its body throws — in
particular when both the AI path and the response-generator path throw — it
resolves to the fixed trouble sentence. -/
theorem processQuery_never_rejects (config : InsuranceServiceConfig)
    (llm : String → Except String String)
    (rg : ResponseContext → Except String FormattedResponse)
    (query : String) (modelOverride : Option String) :
    (∃ s, processQuery config llm rg query modelOverride = .ok s)
    ∧ (∀ e, processQueryBody config llm rg query modelOverride = .error e →
        processQuery config llm rg query modelOverride = .ok troubleSentence) := by
  constructor
  · unfold processQuery
    cases h : processQueryBody config llm rg query modelOverride with
    | ok s => exact ⟨s, rfl⟩
    | error e => exact ⟨troubleSentence, rfl⟩
  · intro e he
    unfold processQuery
    rw [he]

/-- Witness for C9: with an LLM boundary and a response generator that both
reject, the body throws and `processQuery` still resolves, with the fixed
trouble sentence. -/
theorem processQuery_never_rejects_witness :
    processQueryBody DEFAULT_INSURANCE_CONFIG (fun _ => .error "model down")
        (fun _ => .error "generator down") "hi" none = .error "generator down"
    ∧ processQuery DEFAULT_INSURANCE_CONFIG (fun _ => .error "model down")
        (fun _ => .error "generator down") "hi" none = .ok troubleSentence :=
  ⟨by rfl,
   (processQuery_never_rejects DEFAULT_INSURANCE_CONFIG (fun _ => .error "model down")
     (fun _ => .error "generator down") "hi" none).2 "generator down" (by rfl)⟩

/-- Helper for C10: a policy type produced by the extractor is one of the
four short names, and `findPolicyType` (exact case-insensitive match against
the full table names) resolves none of them. -/
theorem extract_policyType_find_none (q : String) (c : QuestionCategory) (pt : String)
    (h : (extractContextFromQuery q c).policyType = some pt) : findPolicyType pt = none := by
  have hp : (extractContextFromQuery q c).policyType =
      (if strContains (strLower q) "term life" then some "term"
       else if strContains (strLower q) "whole life" then some "whole"
       else if strContains (strLower q) "universal life" then some "universal"
       else if strContains (strLower q) "variable life" then some "variable"
       else none) := rfl
  rw [hp] at h
  have hcases : pt = "term" ∨ pt = "whole" ∨ pt = "universal" ∨ pt = "variable" := by
    split_ifs at h <;> simp_all
  rcases hcases with rfl | rfl | rfl | rfl <;> decide

/-- Helper for C10: the policy personalization step of `applyContext` leaves
the response unchanged for every context the extractor produces. -/
theorem applyPolicy_extractor_inert (q : String) (c : QuestionCategory) (r : String) :
    applyPolicy r (extractContextFromQuery q c) = r := by
  unfold applyPolicy
  cases hpt : (extractContextFromQuery q c).policyType with
  | none => rfl
  | some pt =>
    have hnone := extract_policyType_find_none q c pt hpt
    simp only [hnone]
    split <;> rfl

/-- C10: every policy type the extractor can produce resolves to nothing in
`findPolicyType`, so the policy-type enhancement branches of
`enhanceResponseWithKnowledgeBase` and of `applyContext` are never taken for
contexts produced by the extractor: both functions coincide with their
policy-branch-free variants on such contexts. -/
theorem extractor_policyType_inert :
    (∀ (q : String) (c : QuestionCategory) (pt : String),
        (extractContextFromQuery q c).policyType = some pt → findPolicyType pt = none)
    ∧ (∀ (aiResponse query q2 : String) (c c2 : QuestionCategory),
        enhanceResponseWithKnowledgeBase aiResponse query (extractContextFromQuery q2 c) c2 =
          enhanceNoPolicy aiResponse query)
    ∧ (∀ (r : String) (prev : Option (List String)) (q2 : String) (c : QuestionCategory),
        applyContext r prev (some (extractContextFromQuery q2 c)) =
          applyContextSansPolicy r prev (some (extractContextFromQuery q2 c))) := by
  refine ⟨extract_policyType_find_none, ?_, ?_⟩
  · intro aiResponse query q2 c c2
    unfold enhanceResponseWithKnowledgeBase enhanceNoPolicy
    have hpol : (match (extractContextFromQuery q2 c).policyType with
        | some pt => if pt ≠ "" then findPolicyType pt else none
        | none => none) = (none : Option PolicyTypeInfo) := by
      cases hpt : (extractContextFromQuery q2 c).policyType with
      | none => rfl
      | some pt =>
        have hnone := extract_policyType_find_none q2 c pt hpt
        simp only [hnone]
        split <;> rfl
    rw [hpol]
  · intro r prev q2 c
    unfold applyContext applyContextSansPolicy
    dsimp only
    rw [applyPolicy_extractor_inert]

/-- Witness for C10: the extractor maps `term life please` to policy type
`term`, which `findPolicyType` does not resolve. -/
theorem extractor_policyType_inert_witness :
    (extractContextFromQuery "term life please" QuestionCategory.basic).policyType = some "term"
    ∧ findPolicyType "term" = none :=
  ⟨by decide, extractor_policyType_inert.1 "term life please" .basic "term" (by decide)⟩
